import Mathlib

/-!
Verification of the PROPERTY-OS command/address pipeline and the public-data
aggregation layer.

The development shallowly embeds three source files:
* `src/utils/addressDetection.ts` (address recognition with ordered regex
  patterns and confidence scoring),
* the `CommandProcessor` class of `src/components/tabs/OverviewTab.tsx`
  (command classification and execution),
* the `PublicDataScraper` class of `src/services/PublicDataScraper.ts`
  (settle-all fan-out aggregation).

Modelling conventions:
* JS strings are modelled as `String`/`List Char` (sequences of Unicode
  scalar values); all characters relevant to the embedded regexes are ASCII.
* JS numbers used for confidences are modelled as `ℚ`; every confidence in
  the source is a small decimal, and no claim distinguishes values closer
  than binary-float rounding error.
* The JS regexes are embedded as explicit backtracking matchers that
  enumerate quantifier splits in greedy order and alternatives in listed
  order, returning the first overall match, exactly as the JS engine does.
* `async`/`Promise` code is modelled with `Except`: a rejected promise /
  thrown exception is `Except.error`; `Promise.allSettled` converts each
  `Except` outcome into a `Settled` value.
-/

set_option maxRecDepth 4000

namespace PropertyOS

/-! ### JS string primitives -/

/-- The JS whitespace set used by both `String.prototype.trim` and the regex
class `\s` (WhiteSpace ∪ LineTerminator). -/
def jsWhitespace (c : Char) : Bool :=
  c.toNat = 9 || c.toNat = 10 || c.toNat = 11 || c.toNat = 12 || c.toNat = 13 ||
  c.toNat = 32 || c.toNat = 0xA0 || c.toNat = 0x1680 ||
  (0x2000 ≤ c.toNat && c.toNat ≤ 0x200A) ||
  c.toNat = 0x2028 || c.toNat = 0x2029 || c.toNat = 0x202F ||
  c.toNat = 0x205F || c.toNat = 0x3000 || c.toNat = 0xFEFF

/-- JS `String.prototype.trim`. -/
def jsTrim (cs : List Char) : List Char :=
  ((cs.dropWhile jsWhitespace).reverse.dropWhile jsWhitespace).reverse

/-- Regex class `\d`. -/
def isDigitA (c : Char) : Bool := 48 ≤ c.toNat && c.toNat ≤ 57

/-- ASCII uppercase letter. -/
def isUpperA (c : Char) : Bool := 65 ≤ c.toNat && c.toNat ≤ 90

/-- ASCII lowercase letter. -/
def isLowerA (c : Char) : Bool := 97 ≤ c.toNat && c.toNat ≤ 122

/-- Regex class `[A-Za-z]`; with the `i` flag this is also what `[A-Z]`
matches (canonicalisation maps ASCII letters to upper case and never maps a
non-ASCII character into ASCII). -/
def isLetterA (c : Char) : Bool := isUpperA c || isLowerA c

/-- Regex class `[A-Za-z\s]`. -/
def isLetterOrSpace (c : Char) : Bool := isLetterA c || jsWhitespace c

/-- Regex class `[A-Za-z0-9]`. -/
def isAlnumA (c : Char) : Bool := isLetterA c || isDigitA c

/-- Regex word character (for `\b`): `[A-Za-z0-9_]`. -/
def isWordA (c : Char) : Bool := isLetterA c || isDigitA c || c.toNat = 95

/-- ASCII lower-casing, the canonicalisation relevant to the `i` regex flag
on the ASCII patterns of the source (and to `String.prototype.toLowerCase`
on the ASCII keywords the classifier uses). -/
def lowerA (c : Char) : Char :=
  if isUpperA c then Char.ofNat (c.toNat + 32) else c

/-- Case-insensitive character comparison under ASCII canonicalisation. -/
def ciEq (a b : Char) : Bool := lowerA a == lowerA b

/-- JS `String.prototype.toLowerCase` restricted to its ASCII action. -/
def jsToLower (cs : List Char) : List Char := cs.map lowerA

/-! ### Backtracking regex combinators

Each combinator enumerates the ways a regex piece can match a prefix of the
remaining input, in the priority order of the JS backtracking engine
(greedy quantifiers try longer takes first, alternatives are tried in
listed order), and feeds each way to a continuation; the first overall
success wins. -/

/-- First `some` produced by `f` along a list (the backtracking search). -/
def firstSome {α β : Type} (f : α → Option β) : List α → Option β
  | [] => none
  | a :: as =>
    match f a with
    | some b => some b
    | none => firstSome f as

/-- Length of the maximal prefix of `cs` whose characters satisfy `p`. -/
def maxRunLen (p : Char → Bool) : List Char → Nat
  | [] => 0
  | c :: cs => if p c then maxRunLen p cs + 1 else 0

/-- Splits `(cs.take k, cs.drop k)` for `k` from the maximal `p`-run length
down to `lo`: the candidate matches of a greedy `p{lo,}` quantifier, in
the order the JS engine tries them. -/
def greedySplits (p : Char → Bool) (lo : Nat) (cs : List Char) :
    List (List Char × List Char) :=
  let r := maxRunLen p cs
  if lo ≤ r then
    (List.range (r + 1 - lo)).map fun j => (cs.take (r - j), cs.drop (r - j))
  else []

/-- The unique match of an exact-count quantifier `p{n}`. -/
def exactSplit (p : Char → Bool) (n : Nat) (cs : List Char) :
    Option (List Char × List Char) :=
  if n ≤ maxRunLen p cs then some (cs.take n, cs.drop n) else none

/-- Case-insensitive literal: consume `w` from the front of `cs`, returning
the consumed input characters and the rest. -/
def stripCI : List Char → List Char → Option (List Char × List Char)
  | [], cs => some ([], cs)
  | _ :: _, [] => none
  | w :: ws, c :: cs =>
    if ciEq w c then (stripCI ws cs).map fun p => (c :: p.1, p.2) else none

/-- Try every split in order, feeding each to the continuation `k`;
backtracks into earlier splits when `k` fails. -/
def tryAll {β : Type} (choices : List (List Char × List Char))
    (k : List Char → List Char → Option β) : Option β :=
  firstSome (fun p => k p.1 p.2) choices

/-- Ordered alternation of case-insensitive literal words. -/
def tryAlts {β : Type} (alts : List (List Char)) (cs : List Char)
    (k : List Char → List Char → Option β) : Option β :=
  firstSome
    (fun w =>
      match stripCI w cs with
      | some p => k p.1 p.2
      | none => none)
    alts

/-- Greedy `,?`: try consuming a comma first, then not consuming it. -/
def tryOptComma {β : Type} (cs : List Char) (k : List Char → Option β) :
    Option β :=
  match cs with
  | c :: rest =>
    if c = ',' then
      (match k rest with
       | some b => some b
       | none => k (c :: rest))
    else k (c :: rest)
  | [] => k []

/-- Exact-count quantifier `p{n}` (a single candidate), fed to the
continuation `k`. -/
def tryExact {β : Type} (p : Char → Bool) (n : Nat) (cs : List Char)
    (k : List Char → List Char → Option β) : Option β :=
  match exactSplit p n cs with
  | some q => k q.1 q.2
  | none => none

/-- Greedy optional ZIP+4 extension `(?:-\d{4})?` inside the capturing ZIP
group: the continuation is first tried with the extended capture, then
(backtracking) with the bare five digits. -/
def tryZipExt {β : Type} (z5 r12 : List Char)
    (k : List Char → List Char → Option β) : Option β :=
  match r12 with
  | c :: r13 =>
    if c = '-' then
      match tryExact isDigitA 4 r13 (fun z4 r14 => k (z5 ++ c :: z4) r14) with
      | some b => some b
      | none => k z5 (c :: r13)
    else k z5 (c :: r13)
  | [] => k z5 []

/-- `\b` at a position whose preceding character is a word character:
succeeds iff the input ends here or continues with a non-word character. -/
def boundaryAfterWord (rest : List Char) : Bool :=
  match rest with
  | [] => true
  | c :: _ => !isWordA c

/-- General `\b` given the preceding character (if any) and the rest. -/
def wordBoundary (prev : Option Char) (rest : List Char) : Bool :=
  let pw := match prev with | some c => isWordA c | none => false
  let nw := match rest with | [] => false | c :: _ => isWordA c
  pw != nw

/-- Scan for an unanchored, case-insensitive `\bw\b` occurrence, for a word
`w` made of ASCII letters; `prevWord` records whether the character before
the current position is a word character. -/
def containsWordCIAux (w : List Char) : Bool → List Char → Bool
  | _, [] => false
  | prevWord, c :: cs =>
    (!prevWord &&
      (match stripCI w (c :: cs) with
       | some p => boundaryAfterWord p.2
       | none => false)) ||
    containsWordCIAux w (isWordA c) cs

/-- JS `new RegExp("\\b" ++ w ++ "\\b", "i").test cs` for a letters-only
word `w`. -/
def containsWordCI (w : List Char) (cs : List Char) : Bool :=
  containsWordCIAux w false cs

/-! ### Address detection (`src/utils/addressDetection.ts`) -/

/-- Capture groups of a JS regex match (`match[1]` … `match[5]`); a group
absent from the pattern is `none`. -/
structure JsMatch where
  g1 : Option (List Char) := none
  g2 : Option (List Char) := none
  g3 : Option (List Char) := none
  g4 : Option (List Char) := none
  g5 : Option (List Char) := none
deriving DecidableEq

/-- `STREET_SUFFIXES` from the source, in order. -/
def STREET_SUFFIXES : List String :=
  ["Street", "St", "Avenue", "Ave", "Road", "Rd", "Drive", "Dr",
   "Lane", "Ln", "Boulevard", "Blvd", "Circle", "Cir", "Court", "Ct",
   "Place", "Pl", "Way", "Parkway", "Pkwy", "Trail", "Tr"]

/-- The suffix alternation appearing inside `ADDRESS_PATTERNS` (21
alternatives; unlike `STREET_SUFFIXES` it has no Trail/Tr), in the order
the regexes list them. -/
def PATTERN_SUFFIXES : List (List Char) :=
  (["Street", "St", "Avenue", "Ave", "Road", "Rd", "Drive", "Dr",
    "Lane", "Ln", "Boulevard", "Blvd", "Circle", "Cir", "Court", "Ct",
    "Place", "Pl", "Way", "Parkway", "Pkwy"] : List String).map String.data

/-- The unit-marker alternation `(?:Apt|Apartment|Unit|#)` of pattern 3. -/
def APT_MARKERS : List (List Char) :=
  (["Apt", "Apartment", "Unit", "#"] : List String).map String.data

/-- `ADDRESS_PATTERNS[0]`:
`/^(\d+)\s+([A-Za-z\s]+(?:Street|St|…|Pkwy))\b/i`. -/
def matchPattern0 (cs : List Char) : Option JsMatch :=
  tryAll (greedySplits isDigitA 1 cs) fun d r1 =>
  tryAll (greedySplits jsWhitespace 1 r1) fun _ r2 =>
  tryAll (greedySplits isLetterOrSpace 1 r2) fun a r3 =>
  tryAlts PATTERN_SUFFIXES r3 fun suf r4 =>
  if boundaryAfterWord r4 then
    some { g1 := some d, g2 := some (a ++ suf) }
  else none

/-- `ADDRESS_PATTERNS[1]`:
`/^(\d+)\s+([A-Za-z\s]+(?:…)),?\s+([A-Za-z\s]+),?\s+([A-Z]{2})\b/i`. -/
def matchPattern1 (cs : List Char) : Option JsMatch :=
  tryAll (greedySplits isDigitA 1 cs) fun d r1 =>
  tryAll (greedySplits jsWhitespace 1 r1) fun _ r2 =>
  tryAll (greedySplits isLetterOrSpace 1 r2) fun a r3 =>
  tryAlts PATTERN_SUFFIXES r3 fun suf r4 =>
  tryOptComma r4 fun r5 =>
  tryAll (greedySplits jsWhitespace 1 r5) fun _ r6 =>
  tryAll (greedySplits isLetterOrSpace 1 r6) fun city r7 =>
  tryOptComma r7 fun r8 =>
  tryAll (greedySplits jsWhitespace 1 r8) fun _ r9 =>
  tryExact isLetterA 2 r9 fun st r10 =>
  if boundaryAfterWord r10 then
    some { g1 := some d, g2 := some (a ++ suf), g3 := some city,
           g4 := some st }
  else none

/-- `ADDRESS_PATTERNS[2]`:
`/^(\d+)\s+([A-Za-z\s]+(?:…)),?\s+([A-Za-z\s]+),?\s+([A-Z]{2})\s+(\d{5}(?:-\d{4})?)\b/i`. -/
def matchPattern2 (cs : List Char) : Option JsMatch :=
  tryAll (greedySplits isDigitA 1 cs) fun d r1 =>
  tryAll (greedySplits jsWhitespace 1 r1) fun _ r2 =>
  tryAll (greedySplits isLetterOrSpace 1 r2) fun a r3 =>
  tryAlts PATTERN_SUFFIXES r3 fun suf r4 =>
  tryOptComma r4 fun r5 =>
  tryAll (greedySplits jsWhitespace 1 r5) fun _ r6 =>
  tryAll (greedySplits isLetterOrSpace 1 r6) fun city r7 =>
  tryOptComma r7 fun r8 =>
  tryAll (greedySplits jsWhitespace 1 r8) fun _ r9 =>
  tryExact isLetterA 2 r9 fun st r10 =>
  tryAll (greedySplits jsWhitespace 1 r10) fun _ r11 =>
  tryExact isDigitA 5 r11 fun z5 r12 =>
  tryZipExt z5 r12 fun z r13 =>
  if boundaryAfterWord r13 then
    some { g1 := some d, g2 := some (a ++ suf), g3 := some city,
           g4 := some st, g5 := some z }
  else none

/-- `ADDRESS_PATTERNS[3]`:
`/^(\d+)\s+([A-Za-z\s]+(?:…))\s+(?:Apt|Apartment|Unit|#)\s*([A-Za-z0-9]+)/i`. -/
def matchPattern3 (cs : List Char) : Option JsMatch :=
  tryAll (greedySplits isDigitA 1 cs) fun d r1 =>
  tryAll (greedySplits jsWhitespace 1 r1) fun _ r2 =>
  tryAll (greedySplits isLetterOrSpace 1 r2) fun a r3 =>
  tryAlts PATTERN_SUFFIXES r3 fun suf r4 =>
  tryAll (greedySplits jsWhitespace 1 r4) fun _ r5 =>
  tryAlts APT_MARKERS r5 fun _ r6 =>
  tryAll (greedySplits jsWhitespace 0 r6) fun _ r7 =>
  tryAll (greedySplits isAlnumA 1 r7) fun u _r8 =>
  some { g1 := some d, g2 := some (a ++ suf), g3 := some u }

/-- `ADDRESS_PATTERNS[4]`: `/^(\d+)\s+([A-Za-z\s]{2,})\b/i`. -/
def matchPattern4 (cs : List Char) : Option JsMatch :=
  tryAll (greedySplits isDigitA 1 cs) fun d r1 =>
  tryAll (greedySplits jsWhitespace 1 r1) fun _ r2 =>
  tryAll (greedySplits isLetterOrSpace 2 r2) fun a r3 =>
  if wordBoundary a.getLast? r3 then some { g1 := some d, g2 := some a }
  else none

/-- `trimmed.match(ADDRESS_PATTERNS[i])`. -/
def matchPattern : Nat → List Char → Option JsMatch
  | 0, cs => matchPattern0 cs
  | 1, cs => matchPattern1 cs
  | 2, cs => matchPattern2 cs
  | 3, cs => matchPattern3 cs
  | 4, cs => matchPattern4 cs
  | _, _ => none

/-- `calculateConfidence` from the source.  Every confidence in the source
is a multiple of 0.05, so the arithmetic is carried out in exact hundredths
(0.9 ↦ 90, +0.05 ↦ +5, −0.1 ↦ −10, clamp to [0,99]) and the result is the
rational number of hundredths; every comparison these values meet in the
program is robust to IEEE double rounding. -/
def calculateConfidence (m : JsMatch) (patternIndex : Nat) : ℚ :=
  let base : Int :=
    if patternIndex = 0 then 90
    else if patternIndex = 1 then 95
    else if patternIndex = 2 then 98
    else if patternIndex = 3 then 85
    else if patternIndex = 4 then 70
    else 80
  let streetText := m.g2.getD []
  let hasCommonSuffix :=
    (STREET_SUFFIXES.take 8).any fun suf => containsWordCI suf.data streetText
  let c1 := if hasCommonSuffix then base + 5 else base
  let c2 := if streetText.length < 4 then c1 - 10 else c1
  mkRat (min 99 (max 0 c2)) 100

/-- The `components` record of an `AddressMatch`. -/
structure AddressComponents where
  number : Option String := none
  street : Option String := none
  city : Option String := none
  state : Option String := none
  zip : Option String := none
deriving DecidableEq

/-- Result type of `detectAddress` (interface `AddressMatch`). -/
structure AddressMatch where
  isAddress : Bool
  formatted : String
  components : AddressComponents
  confidence : ℚ
deriving DecidableEq

/-- JS template-literal stringification of a possibly-undefined string. -/
def jsShow (o : Option (List Char)) : List Char :=
  o.getD "undefined".data

/-- JS truthiness of a possibly-undefined string (`undefined` and the empty
string are falsy). -/
def jsTruthyStr (o : Option (List Char)) : Bool :=
  match o with
  | some s => !s.isEmpty
  | none => false

/-- `formatAddress` from the source. -/
def formatAddress (m : JsMatch) : String :=
  let f1 := jsShow m.g1 ++ ' ' :: jsShow m.g2
  let f2 :=
    if jsTruthyStr m.g3 && jsTruthyStr m.g4 then
      f1 ++ ", ".data ++ jsShow m.g3 ++ ", ".data ++ jsShow m.g4
    else f1
  let f3 := if jsTruthyStr m.g5 then f2 ++ ' ' :: jsShow m.g5 else f2
  f3.asString

/-- `extractComponents` from the source (positional destructuring of
`match[1]` … `match[5]`). -/
def extractComponents (m : JsMatch) : AddressComponents :=
  { number := m.g1.map List.asString
    street := m.g2.map List.asString
    city := m.g3.map List.asString
    state := m.g4.map List.asString
    zip := m.g5.map List.asString }

/-- The fallback test `/^\d+/.test(trimmed)`. -/
def startsWithDigit : List Char → Bool
  | c :: _ => isDigitA c
  | [] => false

/-- The pattern loop of `detectAddress`: try the patterns whose indices
remain, returning at the first pattern that matches with confidence above
0.6 (a match at or below 0.6 falls through to the next pattern, exactly as
in the source loop). -/
def tryPatternsFrom : List Nat → List Char → Option AddressMatch
  | [], _ => none
  | i :: is, cs =>
    match matchPattern i cs with
    | some m =>
      let confidence := calculateConfidence m i
      if mkRat 3 5 < confidence then
        some { isAddress := true, formatted := formatAddress m,
               components := extractComponents m, confidence := confidence }
      else tryPatternsFrom is cs
    | none => tryPatternsFrom is cs

/-- Body of `detectAddress` given the original input (used verbatim in the
two failure returns) and the trimmed character list. -/
def detectAddressCore (input : String) (trimmed : List Char) : AddressMatch :=
  if trimmed.length < 3 then
    { isAddress := false, formatted := input, components := {},
      confidence := 0 }
  else
    match tryPatternsFrom [0, 1, 2, 3, 4] trimmed with
    | some r => r
    | none =>
      let hasNumber := startsWithDigit trimmed
      let hasStreetSuffix :=
        STREET_SUFFIXES.any fun suf => containsWordCI suf.data trimmed
      if hasNumber && hasStreetSuffix then
        { isAddress := true, formatted := trimmed.asString,
          components := { street := some trimmed.asString },
          confidence := mkRat 7 10 }
      else
        { isAddress := false, formatted := input, components := {},
          confidence := 0 }

/-- `detectAddress` from the source.  The source guard
`!trimmed || trimmed.length < 3` is equivalent to `trimmed.length < 3`. -/
def detectAddress (input : String) : AddressMatch :=
  detectAddressCore input (jsTrim input.data)

/-! ### CommandProcessor (`src/components/tabs/OverviewTab.tsx`)

The `CommandType` union and `CommandResult` interface are imported by the
source from `@/types`; their declarations are not in the repository
snapshot, but every constructor/field below is fixed by their uses in
`OverviewTab.tsx` (the string literals of `ProcessedCommand.type` and the
`{success, message, data}` object literals returned by the handlers). -/

/-- Command kinds produced by `processInput` / consumed by
`executeCommand`. -/
inductive CommandType where
  | address | navigation | maintenance | tenant | scheduling
  | analysis | search | help | create | unknown
deriving DecidableEq

/-- The TS string literal naming a command type (used by the template
literal in the default branch of `executeCommand`). -/
def commandTypeStr : CommandType → String
  | .address => "address"
  | .navigation => "navigation"
  | .maintenance => "maintenance"
  | .tenant => "tenant"
  | .scheduling => "scheduling"
  | .analysis => "analysis"
  | .search => "search"
  | .help => "help"
  | .create => "create"
  | .unknown => "unknown"

/-- The `data` payloads attached to a `ProcessedCommand`, one constructor
per object-literal shape in the source. -/
inductive CommandData where
  | addressData (formatted : String) (components : AddressComponents)
  | analysisData (analysisType : String)
  | actionData (action : String)
  | targetData (target : String)
  | queryData (query : String)
  | entityData (entity : String)
deriving DecidableEq

/-- `ProcessedCommand` from the source. -/
structure ProcessedCommand where
  type : CommandType
  input : String
  confidence : ℚ
  data : Option CommandData := none
  addressMatch : Option AddressMatch := none
deriving DecidableEq

/-- Left-to-right scan for a contiguous occurrence of `needle`. -/
def includesAux (needle : List Char) : List Char → Bool
  | [] => needle.isEmpty
  | c :: cs => needle.isPrefixOf (c :: cs) || includesAux needle cs

/-- JS `String.prototype.includes` on already-lower-cased text. -/
def includesSub (needle : String) (hay : List Char) : Bool :=
  includesAux needle.data hay

/-- JS `String.prototype.startsWith`. -/
def startsWithSub (needle : String) (hay : List Char) : Bool :=
  needle.data.isPrefixOf hay

/-- `detectContextualCommand` from the source. -/
def detectContextualCommand (input : String) (activeTab : Option String) :
    ProcessedCommand :=
  let lower := jsToLower input.data
  let unknownRes : ProcessedCommand :=
    { type := .unknown, input := input, confidence := 0 }
  if activeTab = some "overview" then
    if includesSub "health" lower || includesSub "score" lower then
      { type := .analysis, input := input, confidence := mkRat 8 10,
        data := some (.analysisData "health") }
    else if includesSub "alert" lower || includesSub "issue" lower then
      { type := .analysis, input := input, confidence := mkRat 8 10,
        data := some (.analysisData "alerts") }
    else unknownRes
  else if activeTab = some "operations" then
    if includesSub "maintenance" lower || includesSub "repair" lower then
      { type := .maintenance, input := input, confidence := mkRat 9 10,
        data := some (.actionData "create_work_order") }
    else if includesSub "tenant" lower || includesSub "lease" lower then
      { type := .tenant, input := input, confidence := mkRat 9 10,
        data := some (.actionData "tenant_management") }
    else if includesSub "schedule" lower || includesSub "appointment" lower then
      { type := .scheduling, input := input, confidence := mkRat 8 10,
        data := some (.actionData "schedule") }
    else unknownRes
  else if activeTab = some "intelligence" then
    if includesSub "market" lower || includesSub "comp" lower ||
        includesSub "value" lower then
      { type := .analysis, input := input, confidence := mkRat 9 10,
        data := some (.analysisData "market") }
    else if includesSub "rent" lower || includesSub "pricing" lower then
      { type := .analysis, input := input, confidence := mkRat 9 10,
        data := some (.analysisData "rent_optimization") }
    else if includesSub "expense" lower || includesSub "cost" lower then
      { type := .analysis, input := input, confidence := mkRat 8 10,
        data := some (.analysisData "expenses") }
    else unknownRes
  else unknownRes

/-- `extractEntityType` from the source. -/
def extractEntityType (input : List Char) : String :=
  if includesSub "property" input then "property"
  else if includesSub "tenant" input then "tenant"
  else if includesSub "work order" input || includesSub "maintenance" input then
    "work_order"
  else if includesSub "expense" input then "expense"
  else if includesSub "document" input then "document"
  else "unknown"

/-- `detectGeneralCommand` from the source.  Falling out of the navigation
block without a recognised target continues with the help checks, exactly
as control flow does in the source. -/
def detectGeneralCommand (input : String) : ProcessedCommand :=
  let lower := jsToLower input.data
  let navPart : Option ProcessedCommand :=
    if includesSub "go to" lower || includesSub "navigate" lower ||
        includesSub "show" lower then
      if includesSub "overview" lower then
        some { type := .navigation, input := input, confidence := mkRat 9 10,
               data := some (.targetData "overview") }
      else if includesSub "operations" lower then
        some { type := .navigation, input := input, confidence := mkRat 9 10,
               data := some (.targetData "operations") }
      else if includesSub "intelligence" lower then
        some { type := .navigation, input := input, confidence := mkRat 9 10,
               data := some (.targetData "intelligence") }
      else if includesSub "home" lower then
        some { type := .navigation, input := input, confidence := mkRat 9 10,
               data := some (.targetData "home") }
      else none
    else none
  match navPart with
  | some r => r
  | none =>
    if includesSub "help" lower || includesSub "how" lower ||
        includesSub "what" lower then
      { type := .help, input := input, confidence := mkRat 8 10,
        data := some (.queryData input) }
    else if startsWithSub "create" lower || startsWithSub "add" lower ||
        startsWithSub "new" lower then
      { type := .create, input := input, confidence := mkRat 7 10,
        data := some (.entityData (extractEntityType lower)) }
    else { type := .unknown, input := input, confidence := 0 }

/-- `processInput` from the source. -/
def processInput (input : String) (activeTab : Option String) :
    ProcessedCommand :=
  let trimmed := (jsTrim input.data).asString
  if trimmed = "" then
    { type := .unknown, input := input, confidence := 0 }
  else
    let addressMatch := detectAddress trimmed
    if addressMatch.isAddress = true ∧ mkRat 3 5 < addressMatch.confidence then
      { type := .address, input := trimmed,
        confidence := addressMatch.confidence,
        addressMatch := some addressMatch,
        data := some (.addressData addressMatch.formatted
          addressMatch.components) }
    else
      let contextualCommand := detectContextualCommand trimmed activeTab
      if mkRat 7 10 < contextualCommand.confidence then contextualCommand
      else
        let generalCommand := detectGeneralCommand trimmed
        if mkRat 3 5 < generalCommand.confidence then generalCommand
        else
          { type := .search, input := trimmed, confidence := mkRat 1 2,
            data := some (.queryData trimmed) }

/-! #### Command execution -/

/-- A thrown JS value: an `Error` object carrying a message, or anything
else (the executor's catch clause distinguishes exactly these two cases
via `instanceof Error`). -/
inductive ThrownValue where
  | errorObj (message : String)
  | nonError
deriving DecidableEq

/-- The `data` payloads of the `CommandResult`s built by the handlers. -/
inductive ResultData where
  | addressDetected (address : Option AddressMatch)
  | navigationTo (target : String)
  | maintenanceAction (action : String)
  | tenantAction (action : String)
  | analysisRun (analysisType : String)
  | searchQuery (query : String)
  | helpInfo (suggestions : List String)
  | createEntity (entity : String)
deriving DecidableEq

/-- `CommandResult` as constructed throughout `executeCommand` and the
handlers (`{success, message, data}`). -/
structure CommandResult where
  success : Bool
  message : String
  data : Option ResultData
deriving DecidableEq

/-- JS property read `command.data.f`: throws a `TypeError` when `data` is
`undefined`, yields `undefined` (stringified as `"undefined"`) when the
payload has no such field. -/
def jsDataField (d : Option CommandData) (f : CommandData → Option String)
    (fname : String) : Except ThrownValue String :=
  match d with
  | none =>
    .error (.errorObj ("Cannot read properties of undefined (reading " ++
      fname ++ ")"))
  | some v => .ok ((f v).getD "undefined")

/-- `handleAddressCommand` (`command.addressMatch?.formatted` stringifies
`undefined` when absent). -/
def handleAddressCommand (command : ProcessedCommand) :
    Except ThrownValue CommandResult :=
  .ok { success := true,
        message := "Processing address: " ++
          (match command.addressMatch with
           | some m => m.formatted
           | none => "undefined"),
        data := some (.addressDetected command.addressMatch) }

/-- `handleNavigationCommand` (reads `command.data.target`). -/
def handleNavigationCommand (command : ProcessedCommand) :
    Except ThrownValue CommandResult := do
  let target ← jsDataField command.data
    (fun d => match d with | .targetData t => some t | _ => none) "target"
  .ok { success := true, message := "Navigating to " ++ target,
        data := some (.navigationTo target) }

/-- `handleMaintenanceCommand` (reads `command.data.action`). -/
def handleMaintenanceCommand (command : ProcessedCommand) :
    Except ThrownValue CommandResult := do
  let action ← jsDataField command.data
    (fun d => match d with | .actionData a => some a | _ => none) "action"
  .ok { success := true, message := "Creating maintenance work order...",
        data := some (.maintenanceAction action) }

/-- `handleTenantCommand` (reads `command.data.action`). -/
def handleTenantCommand (command : ProcessedCommand) :
    Except ThrownValue CommandResult := do
  let action ← jsDataField command.data
    (fun d => match d with | .actionData a => some a | _ => none) "action"
  .ok { success := true, message := "Opening tenant management...",
        data := some (.tenantAction action) }

/-- `handleAnalysisCommand` (reads `command.data.analysisType`). -/
def handleAnalysisCommand (command : ProcessedCommand) :
    Except ThrownValue CommandResult := do
  let analysisType ← jsDataField command.data
    (fun d => match d with | .analysisData a => some a | _ => none)
    "analysisType"
  .ok { success := true,
        message := "Running " ++ analysisType ++ " analysis...",
        data := some (.analysisRun analysisType) }

/-- `handleSearchCommand` (reads `command.data.query`). -/
def handleSearchCommand (command : ProcessedCommand) :
    Except ThrownValue CommandResult := do
  let query ← jsDataField command.data
    (fun d => match d with | .queryData q => some q | _ => none) "query"
  .ok { success := true, message := "Searching for: " ++ query,
        data := some (.searchQuery query) }

/-- `handleHelpCommand`. -/
def handleHelpCommand (_command : ProcessedCommand) :
    Except ThrownValue CommandResult :=
  .ok { success := true,
        message := "Here are some things you can try:\n• Type an address to create a property\n• Say \"show maintenance\" for work orders\n• Ask \"what is the health score?\"",
        data := some (.helpInfo
          ["Type an address like \"123 Main Street\"",
           "Navigate with \"go to operations\"",
           "Create work orders with \"schedule maintenance\"",
           "Ask about market value or rent optimization"]) }

/-- `handleCreateCommand` (reads `command.data.entity`). -/
def handleCreateCommand (command : ProcessedCommand) :
    Except ThrownValue CommandResult := do
  let entity ← jsDataField command.data
    (fun d => match d with | .entityData e => some e | _ => none) "entity"
  .ok { success := true, message := "Creating new " ++ entity ++ "...",
        data := some (.createEntity entity) }

/-- The downstream collaborators `executeCommand` dispatches to, one per
handled command type; parameterising over them models that each may await
external work and throw. -/
structure HandlerSet where
  address : ProcessedCommand → Except ThrownValue CommandResult
  navigation : ProcessedCommand → Except ThrownValue CommandResult
  maintenance : ProcessedCommand → Except ThrownValue CommandResult
  tenant : ProcessedCommand → Except ThrownValue CommandResult
  analysis : ProcessedCommand → Except ThrownValue CommandResult
  search : ProcessedCommand → Except ThrownValue CommandResult
  help : ProcessedCommand → Except ThrownValue CommandResult
  create : ProcessedCommand → Except ThrownValue CommandResult

/-- The handlers defined in the source. -/
def defaultHandlers : HandlerSet :=
  { address := handleAddressCommand
    navigation := handleNavigationCommand
    maintenance := handleMaintenanceCommand
    tenant := handleTenantCommand
    analysis := handleAnalysisCommand
    search := handleSearchCommand
    help := handleHelpCommand
    create := handleCreateCommand }

/-- The `switch` statement inside the `try` block of `executeCommand`:
either a handler's outcome (possibly a throw) or the default branch's
failure result. -/
def executeSwitch (h : HandlerSet) (command : ProcessedCommand) :
    Except ThrownValue CommandResult :=
  match command.type with
  | .address => h.address command
  | .navigation => h.navigation command
  | .maintenance => h.maintenance command
  | .tenant => h.tenant command
  | .analysis => h.analysis command
  | .search => h.search command
  | .help => h.help command
  | .create => h.create command
  | t =>
    .ok { success := false,
          message := "Unknown command type: " ++ commandTypeStr t,
          data := none }

/-- The catch clause of `executeCommand`
(`error instanceof Error ? error.message : 'Unknown error'`). -/
def catchClause (e : ThrownValue) : CommandResult :=
  { success := false,
    message := "Error executing command: " ++
      (match e with
       | .errorObj m => m
       | .nonError => "Unknown error"),
    data := none }

/-- `executeCommand` with its downstream handlers abstracted: the
`try`/`catch` around the dispatch `switch`. -/
def executeCommandWith (h : HandlerSet) (command : ProcessedCommand) :
    CommandResult :=
  match executeSwitch h command with
  | .ok r => r
  | .error e => catchClause e

/-- `executeCommand` from the source (with its own handlers). -/
def executeCommand (command : ProcessedCommand) : CommandResult :=
  executeCommandWith defaultHandlers command

/-! ### PublicDataScraper (`src/services/PublicDataScraper.ts`)

The category payload interfaces (`TaxData`, `MarketData`, …) are plain
records of scalars whose contents no claim inspects; the embedding is
polymorphic in them so that every theorem holds for the actual payloads.
`walkScore` is a JS number (`ℚ` here), `floodZone`/`zoning` are strings. -/

/-- One `PromiseSettledResult`: fulfilled with a value or rejected with a
reason (for this code base every rejection reason is an `Error` message). -/
inductive Settled (α : Type) where
  | fulfilled (value : α)
  | rejected (reason : String)
deriving DecidableEq

/-- `extractValue` from the source:
`result.status === 'fulfilled' ? result.value : undefined`. -/
def extractValue {α : Type} : Settled α → Option α
  | .fulfilled v => some v
  | .rejected _ => none

/-- `Promise.allSettled` on a single promise outcome: a thrown error
becomes a rejection, never a propagated exception. -/
def settleOne {α : Type} : Except ThrownValue α → Settled α
  | .ok v => .fulfilled v
  | .error (.errorObj m) => .rejected m
  | .error .nonError => .rejected "Unknown error"

/-- `PublicPropertyData`: the merged multi-source result.  Optional TS
fields are `Option`; the four array categories are `Option (List _)`
because the interface declares them optional, even though the merge always
populates them (see `mergeSettled`). -/
structure PublicPropertyData (TaxData MarketData PermitData ViolationData
    SaleData DemographicsData SchoolData CrimeData : Type) where
  address : String
  taxAssessment : Option TaxData
  marketData : Option MarketData
  permits : Option (List PermitData)
  violations : Option (List ViolationData)
  sales : Option (List SaleData)
  demographics : Option DemographicsData
  schools : Option (List SchoolData)
  crime : Option CrimeData
  walkScore : Option ℚ
  floodZone : Option String
  zoning : Option String
deriving DecidableEq

/-- The settled outcomes of the eleven source queries launched by
`scrapePropertyData`, in source order. -/
structure SettledResults (TaxData MarketData PermitData ViolationData
    SaleData DemographicsData SchoolData CrimeData : Type) where
  taxData : Settled TaxData
  marketData : Settled MarketData
  permits : Settled (List PermitData)
  violations : Settled (List ViolationData)
  sales : Settled (List SaleData)
  demographics : Settled DemographicsData
  schools : Settled (List SchoolData)
  crime : Settled CrimeData
  walkScore : Settled ℚ
  floodZone : Settled String
  zoning : Settled String
deriving DecidableEq

/-- The return expression of `scrapePropertyData` (lines 163–177): the
merge of the eleven settled outcomes.  `x || []` on a possibly-undefined
array is `Option.getD _ []` (every JS array, including `[]`, is truthy, so
a fulfilled array always passes through unchanged). -/
def mergeSettled {TD MD PD VD SD DG SC CR : Type} (address : String)
    (r : SettledResults TD MD PD VD SD DG SC CR) :
    PublicPropertyData TD MD PD VD SD DG SC CR :=
  { address := address
    taxAssessment := extractValue r.taxData
    marketData := extractValue r.marketData
    permits := some ((extractValue r.permits).getD [])
    violations := some ((extractValue r.violations).getD [])
    sales := some ((extractValue r.sales).getD [])
    demographics := extractValue r.demographics
    schools := some ((extractValue r.schools).getD [])
    crime := extractValue r.crime
    walkScore := extractValue r.walkScore
    floodZone := extractValue r.floodZone
    zoning := extractValue r.zoning }

/-- Result of `parseAddress` (street/city/state/zip). -/
structure ParsedAddress where
  street : String
  city : String
  state : String
  zip : String
deriving DecidableEq

/-- `parseAddress` from the source: comma-split, trim each part, missing
parts default to the empty string (`parts[i] || ''`). -/
def parseAddress (address : String) : ParsedAddress :=
  let parts := (address.splitOn ",").map fun p => (jsTrim p.data).asString
  { street := parts.getD 0 ""
    city := parts.getD 1 ""
    state := parts.getD 2 ""
    zip := parts.getD 3 "" }

/-- `getViolationData`: unconditionally throws before any call. -/
def getViolationData (VD : Type) (_address : String) :
    Except ThrownValue (List VD) :=
  .error (.errorObj "Violation data API not implemented - no mock data available")

/-- `getSalesHistory`: unconditionally throws before any call. -/
def getSalesHistory (SD : Type) (_address : String) :
    Except ThrownValue (List SD) :=
  .error (.errorObj "Sales history API not implemented - no mock data available")

/-- `getSchoolData`: unconditionally throws before any call. -/
def getSchoolData (SC : Type) (_address : String) :
    Except ThrownValue (List SC) :=
  .error (.errorObj "School data API not implemented - no mock data available")

/-- `getCrimeData`: unconditionally throws before any call. -/
def getCrimeData (CR : Type) (_address : String) :
    Except ThrownValue CR :=
  .error (.errorObj "Crime data API not implemented - no mock data available")

/-- `getFloodZone`: unconditionally throws before any call. -/
def getFloodZone (_address : String) : Except ThrownValue String :=
  .error (.errorObj "FEMA flood zone API not implemented - no mock data available")

/-- `getZoning`: unconditionally throws before any call. -/
def getZoning (_address : String) : Except ThrownValue String :=
  .error (.errorObj "Zoning API not implemented - no mock data available")

/-- Outcomes of the five fetchers whose behaviour depends on the
environment (configured API keys, network responses): `getTaxAssessmentData`,
`getMarketData`, `getPermitData`, `getDemographics`, `getWalkScore`.  Each
is the `Except` outcome of that fetcher's promise under the ambient
environment. -/
structure FetcherOutcomes (TaxData MarketData PermitData
    DemographicsData : Type) where
  taxData : Except ThrownValue TaxData
  marketData : Except ThrownValue MarketData
  permits : Except ThrownValue (List PermitData)
  demographics : Except ThrownValue DemographicsData
  walkScore : Except ThrownValue ℚ

/-- The `Promise.allSettled` step of `scrapePropertyData`: settle all
eleven queries (the five environment-dependent ones plus the six fetchers
that throw unconditionally), regardless of how each one ended. -/
def settleAllQueries {TD MD PD DG : Type} (VD SD SC CR : Type)
    (address : String) (env : FetcherOutcomes TD MD PD DG) :
    SettledResults TD MD PD VD SD DG SC CR :=
  { taxData := settleOne env.taxData
    marketData := settleOne env.marketData
    permits := settleOne env.permits
    violations := settleOne (getViolationData VD address)
    sales := settleOne (getSalesHistory SD address)
    demographics := settleOne env.demographics
    schools := settleOne (getSchoolData SC address)
    crime := settleOne (getCrimeData CR address)
    walkScore := settleOne env.walkScore
    floodZone := settleOne (getFloodZone address)
    zoning := settleOne (getZoning address) }

/-- `scrapePropertyData` from the source: parse the address, settle all
eleven concurrent queries, merge.  Total — no failure of any query escapes
the `allSettled` boundary. -/
def scrapePropertyData {TD MD PD DG : Type} (VD SD SC CR : Type)
    (address : String) (env : FetcherOutcomes TD MD PD DG) :
    PublicPropertyData TD MD PD VD SD DG SC CR :=
  let _parts := parseAddress address
  mergeSettled address (settleAllQueries VD SD SC CR address env)

/-! ### Infrastructure lemmas -/

theorem firstSome_eq_some {α β : Type} {f : α → Option β} {l : List α}
    {b : β} (h : firstSome f l = some b) : ∃ a ∈ l, f a = some b := by
  induction l with
  | nil => simp [firstSome] at h
  | cons a as ih =>
    rw [firstSome] at h
    cases hfa : f a with
    | some b0 =>
      rw [hfa] at h
      exact ⟨a, List.mem_cons_self a as, hfa.trans h⟩
    | none =>
      rw [hfa] at h
      obtain ⟨a0, hmem, hfa0⟩ := ih h
      exact ⟨a0, List.mem_cons_of_mem a hmem, hfa0⟩

theorem maxRunLen_le_length (p : Char → Bool) (cs : List Char) :
    maxRunLen p cs ≤ cs.length := by
  induction cs with
  | nil => simp [maxRunLen]
  | cons c cs ih =>
    rw [maxRunLen]
    split <;> simp [Nat.succ_le_succ ih, Nat.le_add_right, Nat.le_succ_of_le,
      ih.trans (Nat.le_succ _)]

theorem take_maxRunLen_all (p : Char → Bool) (cs : List Char) :
    ∀ k, k ≤ maxRunLen p cs → (cs.take k).all p = true := by
  induction cs with
  | nil => intro k hk; simp [maxRunLen] at hk; simp [hk]
  | cons c cs ih =>
    intro k hk
    rw [maxRunLen] at hk
    by_cases hp : p c
    · rw [if_pos hp] at hk
      cases k with
      | zero => simp
      | succ j =>
        rw [List.take_succ_cons, List.all_cons, hp, Bool.true_and]
        exact ih j (Nat.lt_succ_iff.mp (Nat.lt_of_lt_of_le (Nat.lt_succ_self j)
          hk))
    · rw [if_neg hp] at hk
      interval_cases k
      simp

theorem greedySplits_mem {p : Char → Bool} {lo : Nat} {cs a b}
    (h : (a, b) ∈ greedySplits p lo cs) :
    lo ≤ a.length ∧ cs = a ++ b ∧ a.all p = true := by
  rw [greedySplits] at h
  split at h
  · next hlo =>
    obtain ⟨j, hj, heq⟩ := List.mem_map.mp h
    have hjlt : j < maxRunLen p cs + 1 - lo := List.mem_range.mp hj
    have h1 : a = cs.take (maxRunLen p cs - j) := by
      have := congrArg Prod.fst heq
      simpa using this.symm
    have h2 : b = cs.drop (maxRunLen p cs - j) := by
      have := congrArg Prod.snd heq
      simpa using this.symm
    have hr := maxRunLen_le_length p cs
    refine ⟨?_, ?_, ?_⟩
    · rw [h1, List.length_take]
      omega
    · rw [h1, h2, List.take_append_drop]
    · exact h1 ▸ take_maxRunLen_all p cs _ (by omega)
  · simp at h

theorem tryAll_eq_some {β : Type} {choices : List (List Char × List Char)}
    {k : List Char → List Char → Option β} {b : β}
    (h : tryAll choices k = some b) :
    ∃ p ∈ choices, k p.1 p.2 = some b :=
  firstSome_eq_some h

theorem tryAlts_eq_some {β : Type} {alts : List (List Char)}
    {cs : List Char} {k : List Char → List Char → Option β} {b : β}
    (h : tryAlts alts cs k = some b) :
    ∃ w ∈ alts, ∃ q, stripCI w cs = some q ∧ k q.1 q.2 = some b := by
  obtain ⟨w, hmem, hw⟩ := firstSome_eq_some h
  cases hq : stripCI w cs with
  | some q =>
    rw [hq] at hw
    exact ⟨w, hmem, q, hq, hw⟩
  | none => rw [hq] at hw; exact absurd hw (by simp)

theorem tryOptComma_eq_some {β : Type} {cs : List Char}
    {k : List Char → Option β} {b : β} (h : tryOptComma cs k = some b) :
    ∃ r, k r = some b := by
  cases cs with
  | nil => exact ⟨_, h⟩
  | cons c rest =>
    rw [tryOptComma] at h
    by_cases hc : c = ','
    · rw [if_pos hc] at h
      cases hk : k rest with
      | some b0 => rw [hk] at h; exact ⟨rest, hk.trans h⟩
      | none => rw [hk] at h; exact ⟨_, h⟩
    · rw [if_neg hc] at h
      exact ⟨_, h⟩

theorem tryExact_eq_some {β : Type} {p : Char → Bool} {n : Nat}
    {cs : List Char} {k : List Char → List Char → Option β} {b : β}
    (h : tryExact p n cs k = some b) :
    ∃ q, exactSplit p n cs = some q ∧ k q.1 q.2 = some b := by
  rw [tryExact] at h
  cases hq : exactSplit p n cs with
  | some q => rw [hq] at h; exact ⟨q, rfl, h⟩
  | none => rw [hq] at h; exact absurd h (by simp)

theorem tryZipExt_eq_some {β : Type} {z5 r12 : List Char}
    {k : List Char → List Char → Option β} {b : β}
    (h : tryZipExt z5 r12 k = some b) : ∃ z r, k z r = some b := by
  cases r12 with
  | nil => exact ⟨_, _, h⟩
  | cons c r13 =>
    rw [tryZipExt] at h
    by_cases hd : c = '-'
    · rw [if_pos hd] at h
      cases hk : tryExact isDigitA 4 r13 (fun z4 r14 => k (z5 ++ c :: z4) r14)
        with
      | some b0 =>
        rw [hk] at h
        obtain ⟨q, _, hkk⟩ := tryExact_eq_some hk
        exact ⟨_, _, hkk.trans h⟩
      | none =>
        rw [hk] at h
        exact ⟨_, _, h⟩
    · rw [if_neg hd] at h
      exact ⟨_, _, h⟩

/-- Whenever a pattern matcher succeeds, the street capture `match[2]` is a
non-empty string. -/
theorem matchPattern_g2 {i : Nat} {cs : List Char} {m : JsMatch}
    (h : matchPattern i cs = some m) : ∃ g, m.g2 = some g ∧ g ≠ [] := by
  have core :
      ∀ (a suf : List Char), 1 ≤ a.length →
        ∃ g, some (a ++ suf) = some g ∧ g ≠ [] := by
    intro a suf hlen
    refine ⟨a ++ suf, rfl, fun hg => ?_⟩
    rcases List.append_eq_nil.mp hg with ⟨ha0, _⟩
    rw [ha0] at hlen
    simp at hlen
  match i with
  | 0 =>
    rw [matchPattern, matchPattern0] at h
    obtain ⟨⟨d, r1⟩, _, h⟩ := tryAll_eq_some h
    obtain ⟨⟨w1, r2⟩, _, h⟩ := tryAll_eq_some h
    obtain ⟨⟨a, r3⟩, ha, h⟩ := tryAll_eq_some h
    obtain ⟨w, _, ⟨suf, r4⟩, _, h⟩ := tryAlts_eq_some h
    dsimp only at h
    split at h
    · cases h
      exact core a suf (greedySplits_mem ha).1
    · exact absurd h (by simp)
  | 1 =>
    rw [matchPattern, matchPattern1] at h
    obtain ⟨⟨d, r1⟩, _, h⟩ := tryAll_eq_some h
    obtain ⟨⟨w1, r2⟩, _, h⟩ := tryAll_eq_some h
    obtain ⟨⟨a, r3⟩, ha, h⟩ := tryAll_eq_some h
    obtain ⟨w, _, ⟨suf, r4⟩, _, h⟩ := tryAlts_eq_some h
    dsimp only at h
    obtain ⟨r5, h⟩ := tryOptComma_eq_some h
    obtain ⟨⟨w2, r6⟩, _, h⟩ := tryAll_eq_some h
    obtain ⟨⟨city, r7⟩, _, h⟩ := tryAll_eq_some h
    obtain ⟨r8, h⟩ := tryOptComma_eq_some h
    obtain ⟨⟨w3, r9⟩, _, h⟩ := tryAll_eq_some h
    obtain ⟨⟨st, r10⟩, _, h⟩ := tryExact_eq_some h
    dsimp only at h
    split at h
    · cases h
      exact core a suf (greedySplits_mem ha).1
    · exact absurd h (by simp)
  | 2 =>
    rw [matchPattern, matchPattern2] at h
    obtain ⟨⟨d, r1⟩, _, h⟩ := tryAll_eq_some h
    obtain ⟨⟨w1, r2⟩, _, h⟩ := tryAll_eq_some h
    obtain ⟨⟨a, r3⟩, ha, h⟩ := tryAll_eq_some h
    obtain ⟨w, _, ⟨suf, r4⟩, _, h⟩ := tryAlts_eq_some h
    dsimp only at h
    obtain ⟨r5, h⟩ := tryOptComma_eq_some h
    obtain ⟨⟨w2, r6⟩, _, h⟩ := tryAll_eq_some h
    obtain ⟨⟨city, r7⟩, _, h⟩ := tryAll_eq_some h
    obtain ⟨r8, h⟩ := tryOptComma_eq_some h
    obtain ⟨⟨w3, r9⟩, _, h⟩ := tryAll_eq_some h
    obtain ⟨⟨st, r10⟩, _, h⟩ := tryExact_eq_some h
    obtain ⟨⟨w4, r11⟩, _, h⟩ := tryAll_eq_some h
    obtain ⟨⟨z5, r12⟩, _, h⟩ := tryExact_eq_some h
    obtain ⟨z, r13, h⟩ := tryZipExt_eq_some h
    dsimp only at h
    split at h
    · cases h
      exact core a suf (greedySplits_mem ha).1
    · exact absurd h (by simp)
  | 3 =>
    rw [matchPattern, matchPattern3] at h
    obtain ⟨⟨d, r1⟩, _, h⟩ := tryAll_eq_some h
    obtain ⟨⟨w1, r2⟩, _, h⟩ := tryAll_eq_some h
    obtain ⟨⟨a, r3⟩, ha, h⟩ := tryAll_eq_some h
    obtain ⟨w, _, ⟨suf, r4⟩, _, h⟩ := tryAlts_eq_some h
    dsimp only at h
    obtain ⟨⟨w2, r5⟩, _, h⟩ := tryAll_eq_some h
    obtain ⟨w0, _, ⟨mk, r6⟩, _, h⟩ := tryAlts_eq_some h
    dsimp only at h
    obtain ⟨⟨w3, r7⟩, _, h⟩ := tryAll_eq_some h
    obtain ⟨⟨u, r8⟩, _, h⟩ := tryAll_eq_some h
    cases h
    exact core a suf (greedySplits_mem ha).1
  | 4 =>
    rw [matchPattern, matchPattern4] at h
    obtain ⟨⟨d, r1⟩, _, h⟩ := tryAll_eq_some h
    obtain ⟨⟨w1, r2⟩, _, h⟩ := tryAll_eq_some h
    obtain ⟨⟨a, r3⟩, ha, h⟩ := tryAll_eq_some h
    dsimp only at h
    split at h
    · cases h
      have hlen : 2 ≤ a.length := (greedySplits_mem ha).1
      refine ⟨a, rfl, fun hg => ?_⟩
      rw [hg] at hlen
      simp at hlen
    · exact absurd h (by simp)
  | (n + 5) =>
    have hnone : matchPattern (n + 5) cs = none := rfl
    rw [hnone] at h
    exact absurd h (by simp)

theorem mkRat_hundredths_le (x : ℤ) :
    mkRat (min 99 (max 0 x)) 100 ≤ mkRat 99 100 := by
  rw [Rat.mkRat_eq_div, Rat.mkRat_eq_div]
  apply div_le_div_of_nonneg_right ?_ (by norm_num)
  · exact_mod_cast min_le_left _ _

theorem lt_mkRat_35_710 : mkRat 3 5 < mkRat 7 10 := by decide

theorem le_mkRat_710_99 : mkRat 7 10 ≤ mkRat 99 100 := by decide

theorem not_lt_mkRat_35_0 : ¬ mkRat 3 5 < (0 : ℚ) := by decide

theorem calculateConfidence_le (m : JsMatch) (i : Nat) :
    calculateConfidence m i ≤ mkRat 99 100 :=
  mkRat_hundredths_le _

theorem data_asString (l : List Char) : (List.asString l).data = l := rfl

theorem asString_ne_empty {l : List Char} (h : l ≠ []) :
    l.asString ≠ "" := by
  intro he
  exact h (by simpa [data_asString] using congrArg String.data he)

theorem stripCI_split {w cs : List Char} {q : List Char × List Char}
    (h : stripCI w cs = some q) : cs = q.1 ++ q.2 ∧ q.1.length = w.length := by
  induction w generalizing cs q with
  | nil =>
    rw [stripCI] at h
    cases h
    exact ⟨rfl, rfl⟩
  | cons wc ws ih =>
    cases cs with
    | nil => simp [stripCI] at h
    | cons c cs =>
      rw [stripCI] at h
      split at h
      · cases hq : stripCI ws cs with
        | some q0 =>
          rw [hq] at h
          simp only [Option.map_some'] at h
          cases h
          obtain ⟨he, hl⟩ := ih hq
          constructor
          · simpa using he
          · simpa using hl
        | none => rw [hq] at h; simp at h
      · exact absurd h (by simp)

theorem firstSome_ne_none {α β : Type} {f : α → Option β} {l : List α}
    {a : α} (hmem : a ∈ l) (ha : f a ≠ none) : firstSome f l ≠ none := by
  induction l with
  | nil => simp at hmem
  | cons x xs ih =>
    rw [firstSome]
    cases hx : f x with
    | some b => simp
    | none =>
      rcases List.mem_cons.mp hmem with h | h
      · rw [h] at ha
        exact absurd hx ha
      · exact ih h

theorem tryAll_ne_none {β : Type} {choices : List (List Char × List Char)}
    {k : List Char → List Char → Option β} {a b : List Char}
    (hmem : (a, b) ∈ choices) (hk : k a b ≠ none) :
    tryAll choices k ≠ none :=
  firstSome_ne_none hmem hk

theorem tryAlts_ne_none {β : Type} {alts : List (List Char)}
    {cs : List Char} {k : List Char → List Char → Option β}
    {w : List Char} {q : List Char × List Char} (hmem : w ∈ alts)
    (hs : stripCI w cs = some q) (hk : k q.1 q.2 ≠ none) :
    tryAlts alts cs k ≠ none := by
  apply firstSome_ne_none hmem
  rw [hs]
  exact hk

/-- Any result produced by the pattern loop is a positive identification
with confidence in `(0.6, 0.99]` and a non-empty street capture. -/
theorem tryPatternsFrom_some {is : List Nat} {cs : List Char}
    {r : AddressMatch} (h : tryPatternsFrom is cs = some r) :
    r.isAddress = true ∧ mkRat 3 5 < r.confidence ∧
      r.confidence ≤ mkRat 99 100 ∧
      ∃ st, r.components.street = some st ∧ st ≠ "" := by
  induction is with
  | nil => simp [tryPatternsFrom] at h
  | cons i is ih =>
    rw [tryPatternsFrom] at h
    split at h
    · next m hm =>
      simp only at h
      split at h
      · next hconf =>
        cases h
        refine ⟨rfl, hconf, calculateConfidence_le m i, ?_⟩
        obtain ⟨g, hg2, hgne⟩ := matchPattern_g2 hm
        exact ⟨g.asString, by simp [extractComponents, hg2],
          asString_ne_empty hgne⟩
      · exact ih h
    · exact ih h

/-- Shape invariant of `detectAddressCore`: either a rejection with
confidence exactly 0, or a positive identification with confidence in
`(0.6, 0.99]` and a non-empty street component. -/
theorem detectAddressCore_inv (input : String) (trimmed : List Char) :
    ((detectAddressCore input trimmed).isAddress = false ∧
      (detectAddressCore input trimmed).confidence = 0) ∨
    ((detectAddressCore input trimmed).isAddress = true ∧
      mkRat 3 5 < (detectAddressCore input trimmed).confidence ∧
      (detectAddressCore input trimmed).confidence ≤ mkRat 99 100 ∧
      ∃ st, (detectAddressCore input trimmed).components.street = some st ∧
        st ≠ "") := by
  rw [detectAddressCore.eq_def]
  split
  · exact Or.inl ⟨rfl, rfl⟩
  · next hlen =>
    split
    · next r hr => exact Or.inr (tryPatternsFrom_some hr)
    · simp only
      split
      · refine Or.inr ⟨rfl, lt_mkRat_35_710, le_mkRat_710_99,
          trimmed.asString, rfl, asString_ne_empty ?_⟩
        intro h0
        rw [h0] at hlen
        simp at hlen
      · exact Or.inl ⟨rfl, rfl⟩

/-- Shape invariant of `detectAddress`. -/
theorem detectAddress_inv (s : String) :
    ((detectAddress s).isAddress = false ∧
      (detectAddress s).confidence = 0) ∨
    ((detectAddress s).isAddress = true ∧
      mkRat 3 5 < (detectAddress s).confidence ∧
      (detectAddress s).confidence ≤ mkRat 99 100 ∧
      ∃ st, (detectAddress s).components.street = some st ∧ st ≠ "") :=
  detectAddressCore_inv s (jsTrim s.data)

theorem head?_dropWhile_not (p : Char → Bool) (l : List Char) :
    ∀ c, (l.dropWhile p).head? = some c → p c = false := by
  induction l with
  | nil => intro c hc; simp [List.dropWhile] at hc
  | cons a as ih =>
    intro c hc
    rw [List.dropWhile_cons] at hc
    by_cases hp : p a = true
    · rw [if_pos hp] at hc
      exact ih c hc
    · rw [if_neg hp] at hc
      simp only [List.head?_cons, Option.some.injEq] at hc
      rw [← hc]
      exact Bool.of_not_eq_true hp

theorem dropWhile_eq_self_of_head {p : Char → Bool} {l : List Char}
    (h : ∀ c, l.head? = some c → p c = false) : l.dropWhile p = l := by
  cases l with
  | nil => rfl
  | cons a as =>
    rw [List.dropWhile_cons, h a rfl]
    simp

theorem dropWhile_idem (p : Char → Bool) (l : List Char) :
    (l.dropWhile p).dropWhile p = l.dropWhile p :=
  dropWhile_eq_self_of_head (head?_dropWhile_not p l)

/-- `trim` is idempotent, hence `detectAddress` applied to
already-trimmed text sees the same trimmed character list. -/
theorem jsTrim_idem (cs : List Char) : jsTrim (jsTrim cs) = jsTrim cs := by
  have step1 : (jsTrim cs).dropWhile jsWhitespace = jsTrim cs := by
    apply dropWhile_eq_self_of_head
    intro c hc
    rw [jsTrim, List.head?_reverse] at hc
    have hBne :
        (cs.dropWhile jsWhitespace).reverse.dropWhile jsWhitespace ≠ [] := by
      intro h0
      rw [h0] at hc
      simp at hc
    obtain ⟨pre, hpre⟩ :=
      List.dropWhile_suffix (l := (cs.dropWhile jsWhitespace).reverse)
        jsWhitespace
    have hAgl : (cs.dropWhile jsWhitespace).reverse.getLast? = some c := by
      rw [← hpre, List.getLast?_append_of_ne_nil pre hBne]
      exact hc
    rw [List.getLast?_reverse] at hAgl
    exact head?_dropWhile_not jsWhitespace cs c hAgl
  calc jsTrim (jsTrim cs)
      = (((jsTrim cs).dropWhile jsWhitespace).reverse.dropWhile
          jsWhitespace).reverse := rfl
    _ = ((jsTrim cs).reverse.dropWhile jsWhitespace).reverse := by
        rw [step1]
    _ = (((cs.dropWhile jsWhitespace).reverse.dropWhile
          jsWhitespace).dropWhile jsWhitespace).reverse := by
        rw [jsTrim, List.reverse_reverse]
    _ = ((cs.dropWhile jsWhitespace).reverse.dropWhile jsWhitespace).reverse
        := by rw [dropWhile_idem]
    _ = jsTrim cs := rfl

theorem jsWhitespace_not_word {c : Char} (h : jsWhitespace c = true) :
    isWordA c = false := by
  rw [jsWhitespace] at h
  rw [isWordA, isLetterA, isUpperA, isLowerA, isDigitA]
  simp only [Bool.or_eq_true, Bool.and_eq_true, decide_eq_true_eq] at h
  simp only [Bool.or_eq_false_iff, Bool.and_eq_false_iff,
    decide_eq_false_iff_not]
  omega

theorem tryOptComma_eq_some_of_head_ne {β : Type} {c : Char}
    {rest : List Char} {k : List Char → Option β} {b : β} (hc : ¬ c = ',')
    (h : tryOptComma (c :: rest) k = some b) : k (c :: rest) = some b := by
  rw [tryOptComma, if_neg hc] at h
  exact h

/-- Every word in the suffix alternation is at least two letters. -/
theorem PATTERN_SUFFIXES_len : ∀ x ∈ PATTERN_SUFFIXES, 2 ≤ x.length := by
  decide

/-- Any input matched by the ZIP-bearing pattern (index 2) is also matched
by the bare number+street+suffix pattern (index 0), which the loop tries
first; moreover such an input is at least 3 characters long, so the
short-input gate does not interfere. -/
theorem matchPattern2_implies_pattern0 {cs : List Char} {m : JsMatch}
    (h : matchPattern2 cs = some m) :
    matchPattern0 cs ≠ none ∧ 3 ≤ cs.length := by
  rw [matchPattern2] at h
  obtain ⟨⟨d, r1⟩, hd, h⟩ := tryAll_eq_some h
  obtain ⟨⟨w1, r2⟩, hw1, h⟩ := tryAll_eq_some h
  obtain ⟨⟨a, r3⟩, ha, h⟩ := tryAll_eq_some h
  obtain ⟨w, hwmem, ⟨suf, r4⟩, hstrip, h⟩ := tryAlts_eq_some h
  dsimp only at h
  have hbd : boundaryAfterWord r4 = true := by
    cases hr4 : r4 with
    | nil => rfl
    | cons c rest =>
      by_cases hc : c = ','
      · subst hc
        show (!isWordA ',') = true
        decide
      · rw [hr4] at h
        have h2 := tryOptComma_eq_some_of_head_ne hc h
        obtain ⟨⟨w2, r6⟩, hw2, _⟩ := tryAll_eq_some h2
        obtain ⟨hlw2, hsw2, hallw2⟩ := greedySplits_mem hw2
        cases w2 with
        | nil => simp at hlw2
        | cons c2 w2t =>
          simp only [List.cons_append, List.cons.injEq] at hsw2
          simp only [List.all_cons, Bool.and_eq_true] at hallw2
          show (!isWordA c) = true
          rw [hsw2.1, jsWhitespace_not_word hallw2.1]
          rfl
  constructor
  · rw [matchPattern0]
    apply tryAll_ne_none hd
    dsimp only
    apply tryAll_ne_none hw1
    dsimp only
    apply tryAll_ne_none ha
    dsimp only
    apply tryAlts_ne_none hwmem hstrip
    dsimp only
    rw [hbd]
    simp
  · obtain ⟨hld, hsd, _⟩ := greedySplits_mem hd
    obtain ⟨hlw1, hsw1, _⟩ := greedySplits_mem hw1
    obtain ⟨hla, hsa, _⟩ := greedySplits_mem ha
    obtain ⟨hsr3, hlsuf⟩ := stripCI_split hstrip
    have hw2 : 2 ≤ w.length := PATTERN_SUFFIXES_len w hwmem
    dsimp only at hsw1 hsa hsr3 hlsuf
    rw [hsd, hsw1, hsa, hsr3]
    simp only [List.length_append]
    omega

theorem mkRat_hundred_bounds {x : ℤ} (h1 : 60 < x) (h2 : x < 98) :
    mkRat 3 5 < mkRat (min 99 (max 0 x)) 100 ∧
      mkRat (min 99 (max 0 x)) 100 < mkRat 49 50 := by
  have hm : min 99 (max 0 x) = x := by omega
  rw [hm, Rat.mkRat_eq_div, Rat.mkRat_eq_div, Rat.mkRat_eq_div]
  have h1q : (60 : ℚ) < (x : ℚ) := by exact_mod_cast h1
  have h2q : (x : ℚ) < 98 := by exact_mod_cast h2
  constructor
  · rw [div_lt_div_iff₀ (by norm_num) (by norm_num)]
    push_cast
    linarith
  · rw [div_lt_div_iff₀ (by norm_num) (by norm_num)]
    push_cast
    linarith

/-- The bare pattern (index 0) always scores strictly between the routing
threshold and the ZIP pattern's base confidence: its possible values are
0.80, 0.85, 0.90, 0.95. -/
theorem calculateConfidence0_bounds (m : JsMatch) :
    mkRat 3 5 < calculateConfidence m 0 ∧
      calculateConfidence m 0 < mkRat 49 50 := by
  rw [calculateConfidence]
  simp only [if_pos rfl]
  apply mkRat_hundred_bounds <;> (split <;> split <;> omega)

/-- When the first pattern matches, `detectAddress` returns its result:
the loop commits to pattern 0 (whose confidence always clears 0.6) without
consulting any later pattern. -/
theorem detectAddress_via_pattern0 {s : String} {m0 : JsMatch}
    (hm : matchPattern 0 (jsTrim s.data) = some m0)
    (hlen : ¬ (jsTrim s.data).length < 3) :
    detectAddress s =
      { isAddress := true, formatted := formatAddress m0,
        components := extractComponents m0,
        confidence := calculateConfidence m0 0 } := by
  rw [detectAddress, detectAddressCore.eq_def, if_neg hlen]
  have hloop : tryPatternsFrom [0, 1, 2, 3, 4] (jsTrim s.data) =
      some { isAddress := true, formatted := formatAddress m0,
             components := extractComponents m0,
             confidence := calculateConfidence m0 0 } := by
    rw [tryPatternsFrom, hm]
    simp only
    rw [if_pos (calculateConfidence0_bounds m0).1]
  rw [hloop]

/-- On a successful recognition (confidence above the routing threshold)
the result of `detectAddressCore` does not depend on the untrimmed input
string (which only feeds the `formatted` field of failure results). -/
theorem detectAddressCore_indep (i1 i2 : String) (t : List Char)
    (h : mkRat 3 5 < (detectAddressCore i1 t).confidence) :
    detectAddressCore i1 t = detectAddressCore i2 t := by
  by_cases hlen : t.length < 3
  · have h1 : detectAddressCore i1 t =
        { isAddress := false, formatted := i1, components := {},
          confidence := 0 } := by
      rw [detectAddressCore.eq_def, if_pos hlen]
    rw [h1] at h
    exact absurd h not_lt_mkRat_35_0
  · cases htp : tryPatternsFrom [0, 1, 2, 3, 4] t with
    | some r =>
      have e : ∀ i : String, detectAddressCore i t = r := by
        intro i
        rw [detectAddressCore.eq_def, if_neg hlen, htp]
      rw [e i1, e i2]
    | none =>
      by_cases hfb : (startsWithDigit t &&
          STREET_SUFFIXES.any fun suf => containsWordCI suf.data t) = true
      · have e : ∀ i : String, detectAddressCore i t =
            { isAddress := true, formatted := t.asString,
              components := { street := some t.asString },
              confidence := mkRat 7 10 } := by
          intro i
          rw [detectAddressCore.eq_def, if_neg hlen, htp]
          simp only
          rw [if_pos hfb]
        rw [e i1, e i2]
      · have h1 : detectAddressCore i1 t =
            { isAddress := false, formatted := i1, components := {},
              confidence := 0 } := by
          rw [detectAddressCore.eq_def, if_neg hlen, htp]
          simp only
          rw [if_neg hfb]
        rw [h1] at h
        exact absurd h not_lt_mkRat_35_0

/-- Above the routing threshold, recognising the trimmed text gives the
same result as recognising the raw text. -/
theorem detectAddress_trim (s : String)
    (h : mkRat 3 5 < (detectAddress s).confidence) :
    detectAddress ((jsTrim s.data).asString) = detectAddress s := by
  rw [detectAddress] at h
  show detectAddressCore ((jsTrim s.data).asString)
      (jsTrim ((jsTrim s.data).asString).data) = detectAddress s
  rw [data_asString, jsTrim_idem]
  exact (detectAddressCore_indep s ((jsTrim s.data).asString) _ h).symm

theorem mkRat_35_eq : mkRat 3 5 = (3/5 : ℚ) := by
  norm_num [Rat.mkRat_eq_div]

theorem mkRat_99_eq : mkRat 99 100 = (99/100 : ℚ) := by
  norm_num [Rat.mkRat_eq_div]

theorem mkRat_4950_eq : mkRat 49 50 = (49/50 : ℚ) := by
  norm_num [Rat.mkRat_eq_div]

theorem jsTrim_length_le (cs : List Char) : (jsTrim cs).length ≤ cs.length := by
  have h1 := (List.dropWhile_suffix (l := cs) jsWhitespace).length_le
  have h2 := (List.dropWhile_suffix
    (l := (cs.dropWhile jsWhitespace).reverse) jsWhitespace).length_le
  simp only [jsTrim, List.length_reverse] at *
  omega

/-! ### Claim theorems: address recognition -/

/-- C8: for every string shorter than 3 characters, `detectAddress`
rejects it outright, returning `isAddress = false` with confidence exactly
0 (the result of the early guard, produced before any pattern is tried). -/
theorem C8_short_strings_rejected (s : String) (h : s.length < 3) :
    detectAddress s =
      { isAddress := false, formatted := s, components := {},
        confidence := 0 } := by
  have hlen : (jsTrim s.data).length < 3 :=
    lt_of_le_of_lt (jsTrim_length_le s.data) h
  rw [detectAddress, detectAddressCore.eq_def, if_pos hlen]

/-- Witness for C8 at the concrete input `"ab"`. -/
theorem C8_short_strings_rejected_witness :
    ("ab" : String).length < 3 ∧
    detectAddress "ab" =
      { isAddress := false, formatted := "ab", components := {},
        confidence := 0 } :=
  ⟨by decide, C8_short_strings_rejected "ab" (by decide)⟩

/-- C10: every `detectAddress` result is either a rejection with
confidence exactly 0 or a positive identification with confidence in
`(0.6, 0.99]`; in particular `isAddress = true` holds iff the confidence
exceeds the 0.6 routing threshold. -/
theorem C10_confidence_dichotomy (s : String) :
    ((detectAddress s).isAddress = true ↔
      (3/5 : ℚ) < (detectAddress s).confidence) ∧
    (((detectAddress s).isAddress = false ∧
        (detectAddress s).confidence = 0) ∨
      ((detectAddress s).isAddress = true ∧
        (3/5 : ℚ) < (detectAddress s).confidence ∧
        (detectAddress s).confidence ≤ 99/100)) := by
  rw [← mkRat_35_eq, ← mkRat_99_eq]
  rcases detectAddress_inv s with ⟨hf, h0⟩ | ⟨ht, hlt, hle, _⟩
  · refine ⟨⟨fun hh => ?_, fun hh => ?_⟩, Or.inl ⟨hf, h0⟩⟩
    · rw [hh] at hf
      simp at hf
    · rw [h0] at hh
      exact absurd hh not_lt_mkRat_35_0
  · exact ⟨⟨fun _ => hlt, fun _ => ht⟩, Or.inr ⟨ht, hlt, hle⟩⟩

/-- C7: whenever `detectAddress` reports `isAddress = true`, its confidence
strictly exceeds the 0.6 routing threshold and the extracted street
component is a non-empty string. -/
theorem C7_positive_has_confidence_and_street (s : String)
    (h : (detectAddress s).isAddress = true) :
    (3/5 : ℚ) < (detectAddress s).confidence ∧
    ∃ st, (detectAddress s).components.street = some st ∧ st ≠ "" := by
  rcases detectAddress_inv s with ⟨hf, _⟩ | ⟨_, hlt, _, hst⟩
  · rw [h] at hf
    simp at hf
  · exact ⟨by rw [← mkRat_35_eq]; exact hlt, hst⟩

/-- Witness for C7 at the concrete input `"123 Main Street"`. -/
theorem C7_positive_has_confidence_and_street_witness :
    (detectAddress "123 Main Street").isAddress = true ∧
    ((3/5 : ℚ) < (detectAddress "123 Main Street").confidence ∧
      ∃ st, (detectAddress "123 Main Street").components.street = some st ∧
        st ≠ "") :=
  ⟨by decide, C7_positive_has_confidence_and_street "123 Main Street"
    (by decide)⟩

/-- C1 counterexample: `"123 Main St, Boston MA 02101"` does match the
ZIP-bearing pattern (index 2), yet `detectAddress` does not give it
confidence ≥ 0.98: the loop tries the bare number+street+suffix pattern
(array index 0) first, which matches the prefix `"123 Main St"` and scores
0.95. -/
theorem C1_counterexample :
    (matchPattern 2 (jsTrim "123 Main St, Boston MA 02101".data)).isSome
      = true ∧
    ¬ ((49/50 : ℚ) ≤
      (detectAddress "123 Main St, Boston MA 02101").confidence) := by
  constructor
  · decide
  · rw [← mkRat_4950_eq]
    decide

/-- C1 (amended): patterns are evaluated in array order and the first
match with confidence above 0.6 wins, but the array lists the bare
number+street+suffix pattern first; consequently every input matching the
ZIP-bearing pattern is classified via the bare pattern, with confidence
strictly below 0.98 (its possible scores are 0.80–0.95). -/
theorem C1_zip_matches_classified_via_bare_pattern (s : String)
    {m : JsMatch} (h : matchPattern 2 (jsTrim s.data) = some m) :
    ∃ m0, matchPattern 0 (jsTrim s.data) = some m0 ∧
      detectAddress s =
        { isAddress := true, formatted := formatAddress m0,
          components := extractComponents m0,
          confidence := calculateConfidence m0 0 } ∧
      (3/5 : ℚ) < calculateConfidence m0 0 ∧
      calculateConfidence m0 0 < 49/50 := by
  obtain ⟨hne, hlen3⟩ := matchPattern2_implies_pattern0 h
  obtain ⟨m0, hm0⟩ := Option.ne_none_iff_exists'.mp hne
  have hm0' : matchPattern 0 (jsTrim s.data) = some m0 := hm0
  have hlen : ¬ (jsTrim s.data).length < 3 := by omega
  refine ⟨m0, hm0', detectAddress_via_pattern0 hm0' hlen, ?_, ?_⟩
  · rw [← mkRat_35_eq]
    exact (calculateConfidence0_bounds m0).1
  · rw [← mkRat_4950_eq]
    exact (calculateConfidence0_bounds m0).2

/-- Witness for the amended C1 at `"123 Main St, Boston MA 02101"`. -/
theorem C1_zip_matches_classified_via_bare_pattern_witness :
    matchPattern 2 (jsTrim "123 Main St, Boston MA 02101".data) =
      some { g1 := some "123".data, g2 := some "Main St".data,
             g3 := some "Boston".data, g4 := some "MA".data,
             g5 := some "02101".data } ∧
    ∃ m0, matchPattern 0 (jsTrim "123 Main St, Boston MA 02101".data)
        = some m0 ∧
      detectAddress "123 Main St, Boston MA 02101" =
        { isAddress := true, formatted := formatAddress m0,
          components := extractComponents m0,
          confidence := calculateConfidence m0 0 } ∧
      (3/5 : ℚ) < calculateConfidence m0 0 ∧
      calculateConfidence m0 0 < 49/50 :=
  ⟨by decide,
   C1_zip_matches_classified_via_bare_pattern "123 Main St, Boston MA 02101"
    (m := { g1 := some "123".data, g2 := some "Main St".data,
            g3 := some "Boston".data, g4 := some "MA".data,
            g5 := some "02101".data })
    (by decide)⟩

/-! ### Claim theorems: command classification -/

/-- C3: whenever the address recogniser scores the input text above the
0.6 routing threshold, `processInput` returns the Address command built
from that recognition, for every active tab — the contextual-keyword and
general-keyword stages never contribute to the result. -/
theorem C3_address_preempts_keywords (text : String) (tab : Option String)
    (h : (3/5 : ℚ) < (detectAddress text).confidence) :
    processInput text tab =
      { type := .address, input := (jsTrim text.data).asString,
        confidence := (detectAddress text).confidence,
        data := some (.addressData (detectAddress text).formatted
          (detectAddress text).components),
        addressMatch := some (detectAddress text) } := by
  rw [← mkRat_35_eq] at h
  have hne : ¬ ((jsTrim text.data).asString = "") := by
    intro h0
    have h0' : jsTrim text.data = [] := by
      simpa [data_asString] using congrArg String.data h0
    have hc0 : (detectAddress text).confidence = 0 := by
      rw [detectAddress, h0']
      rfl
    rw [hc0] at h
    exact absurd h not_lt_mkRat_35_0
  have hda := detectAddress_trim text h
  have hisaddr : (detectAddress text).isAddress = true := by
    rcases detectAddress_inv text with ⟨_, h0⟩ | ⟨ht, _, _, _⟩
    · rw [h0] at h
      exact absurd h not_lt_mkRat_35_0
    · exact ht
  rw [processInput]
  simp only
  rw [if_neg hne, hda, if_pos ⟨hisaddr, h⟩]

/-- Witness for C3 at `"123 Main Street"` with the operations tab
active. -/
theorem C3_address_preempts_keywords_witness :
    (3/5 : ℚ) < (detectAddress "123 Main Street").confidence ∧
    processInput "123 Main Street" (some "operations") =
      { type := .address,
        input := (jsTrim ("123 Main Street" : String).data).asString,
        confidence := (detectAddress "123 Main Street").confidence,
        data := some (.addressData (detectAddress "123 Main Street").formatted
          (detectAddress "123 Main Street").components),
        addressMatch := some (detectAddress "123 Main Street") } :=
  have h : (3/5 : ℚ) < (detectAddress "123 Main Street").confidence := by
    rw [← mkRat_35_eq]
    decide
  ⟨h, C3_address_preempts_keywords "123 Main Street" (some "operations") h⟩

/-! ### Claim theorems: command execution -/

/-- C5: if the downstream handler dispatched by `executeCommand` throws,
the executor catches the exception and returns a failed `CommandResult`;
when the thrown value is an `Error` object the result's message carries the
exception's message.  The executor itself is total: it returns this
`CommandResult` instead of propagating the exception. -/
theorem C5_executor_catches_handler_throws (hs : HandlerSet)
    (command : ProcessedCommand) (e : ThrownValue)
    (he : executeSwitch hs command = .error e) :
    (executeCommandWith hs command).success = false ∧
    ∀ msg, e = .errorObj msg →
      executeCommandWith hs command =
        { success := false,
          message := "Error executing command: " ++ msg, data := none } := by
  constructor
  · rw [executeCommandWith, he]
    rfl
  · intro msg hmsg
    rw [executeCommandWith, he, hmsg]
    rfl

/-- A handler set every entry of which throws an `Error` (a downstream
collaborator failing). -/
def throwingHandlers : HandlerSet :=
  { address := fun _ => .error (.errorObj "boom")
    navigation := fun _ => .error (.errorObj "boom")
    maintenance := fun _ => .error (.errorObj "boom")
    tenant := fun _ => .error (.errorObj "boom")
    analysis := fun _ => .error (.errorObj "boom")
    search := fun _ => .error (.errorObj "boom")
    help := fun _ => .error (.errorObj "boom")
    create := fun _ => .error (.errorObj "boom") }

/-- Witness for C5: an address command whose handler throws. -/
theorem C5_executor_catches_handler_throws_witness :
    executeSwitch throwingHandlers
      { type := .address, input := "x", confidence := 0 } =
      .error (.errorObj "boom") ∧
    ((executeCommandWith throwingHandlers
        { type := .address, input := "x", confidence := 0 }).success = false ∧
      executeCommandWith throwingHandlers
        { type := .address, input := "x", confidence := 0 } =
        { success := false, message := "Error executing command: " ++ "boom",
          data := none }) :=
  have h := C5_executor_catches_handler_throws throwingHandlers
    { type := .address, input := "x", confidence := 0 } (.errorObj "boom") rfl
  ⟨rfl, h.1, h.2 "boom" rfl⟩

/-- C6 counterexample: for the Unknown command with raw input `"foobar"`,
`executeCommand` does return `success = false` with a non-empty message,
but the message is `"Unknown command type: unknown"`: it names the
command's type, and the unrecognized input `"foobar"` appears nowhere in
it. -/
theorem C6_counterexample :
    executeCommand { type := .unknown, input := "foobar", confidence := 0 } =
      { success := false, message := "Unknown command type: unknown",
        data := none } ∧
    includesSub "foobar" ("Unknown command type: unknown" : String).data
      = false := by
  constructor
  · decide
  · decide

/-- C6 (amended): for every command of kind Unknown, `executeCommand`
returns `success = false` with the fixed non-empty diagnostic
`"Unknown command type: unknown"`, which names the unrecognized command's
type rather than the raw input. -/
theorem C6_unknown_failure_message (command : ProcessedCommand)
    (h : command.type = .unknown) :
    executeCommand command =
      { success := false, message := "Unknown command type: unknown",
        data := none } ∧
    ("Unknown command type: unknown" : String) ≠ "" := by
  constructor
  · have hs : executeSwitch defaultHandlers command =
        .ok { success := false,
              message := "Unknown command type: " ++ commandTypeStr .unknown,
              data := none } := by
      rw [executeSwitch.eq_def, h]
    rw [executeCommand, executeCommandWith, hs]
    rfl
  · decide

/-- Witness for the amended C6. -/
theorem C6_unknown_failure_message_witness :
    ({ type := .unknown, input := "zzz", confidence := 0 } :
      ProcessedCommand).type = .unknown ∧
    (executeCommand { type := .unknown, input := "zzz", confidence := 0 } =
      { success := false, message := "Unknown command type: unknown",
        data := none } ∧
    ("Unknown command type: unknown" : String) ≠ "") :=
  ⟨rfl, C6_unknown_failure_message
    { type := .unknown, input := "zzz", confidence := 0 } rfl⟩

/-! ### Claim theorems: public-data aggregation -/

/-- C4: the aggregation is settle-all and never throws: for every
assignment of fulfilled/rejected outcomes to the eleven launched source
queries, the merge is a total function of all eleven settled outcomes, and
every fulfilled source's value appears under its own category regardless
of how many sibling sources fail; `scrapePropertyData` itself is exactly
this merge over the settled outcomes of its eleven queries. -/
theorem C4_settle_all_merge (TD MD PD VD SD DG SC CR : Type)
    (address : String) (r : SettledResults TD MD PD VD SD DG SC CR)
    (env : FetcherOutcomes TD MD PD DG) :
    (∀ v, r.taxData = .fulfilled v →
      (mergeSettled address r).taxAssessment = some v) ∧
    (∀ v, r.marketData = .fulfilled v →
      (mergeSettled address r).marketData = some v) ∧
    (∀ l, r.permits = .fulfilled l →
      (mergeSettled address r).permits = some l) ∧
    (∀ l, r.violations = .fulfilled l →
      (mergeSettled address r).violations = some l) ∧
    (∀ l, r.sales = .fulfilled l →
      (mergeSettled address r).sales = some l) ∧
    (∀ v, r.demographics = .fulfilled v →
      (mergeSettled address r).demographics = some v) ∧
    (∀ l, r.schools = .fulfilled l →
      (mergeSettled address r).schools = some l) ∧
    (∀ v, r.crime = .fulfilled v →
      (mergeSettled address r).crime = some v) ∧
    (∀ q, r.walkScore = .fulfilled q →
      (mergeSettled address r).walkScore = some q) ∧
    (∀ z, r.floodZone = .fulfilled z →
      (mergeSettled address r).floodZone = some z) ∧
    (∀ z, r.zoning = .fulfilled z →
      (mergeSettled address r).zoning = some z) ∧
    scrapePropertyData VD SD SC CR address env =
      mergeSettled address (settleAllQueries VD SD SC CR address env) := by
  refine ⟨?_, ?_, ?_, ?_, ?_, ?_, ?_, ?_, ?_, ?_, ?_, rfl⟩ <;>
    (intro v hv; show _ = _; rw [mergeSettled, hv]; rfl)

/-- The eleven settled outcomes with every query fulfilled. -/
def allFulfilledOutcomes : SettledResults Unit Unit Unit Unit Unit Unit Unit
    Unit :=
  { taxData := .fulfilled (), marketData := .fulfilled ()
    permits := .fulfilled [()], violations := .fulfilled [()]
    sales := .fulfilled [()], demographics := .fulfilled ()
    schools := .fulfilled [()], crime := .fulfilled ()
    walkScore := .fulfilled 72, floodZone := .fulfilled "X"
    zoning := .fulfilled "R1" }

/-- Outcomes of the five environment-dependent fetchers, all succeeding. -/
def allOkFetchers : FetcherOutcomes Unit Unit Unit Unit :=
  { taxData := .ok (), marketData := .ok (), permits := .ok [()]
    demographics := .ok (), walkScore := .ok 72 }

/-- Witness for C4: every fulfilled category of a concrete all-fulfilled
assignment appears in the merged result. -/
theorem C4_settle_all_merge_witness :
    (mergeSettled "1 A St" allFulfilledOutcomes).taxAssessment = some () ∧
    (mergeSettled "1 A St" allFulfilledOutcomes).marketData = some () ∧
    (mergeSettled "1 A St" allFulfilledOutcomes).permits = some [()] ∧
    (mergeSettled "1 A St" allFulfilledOutcomes).violations = some [()] ∧
    (mergeSettled "1 A St" allFulfilledOutcomes).sales = some [()] ∧
    (mergeSettled "1 A St" allFulfilledOutcomes).demographics = some () ∧
    (mergeSettled "1 A St" allFulfilledOutcomes).schools = some [()] ∧
    (mergeSettled "1 A St" allFulfilledOutcomes).crime = some () ∧
    (mergeSettled "1 A St" allFulfilledOutcomes).walkScore = some 72 ∧
    (mergeSettled "1 A St" allFulfilledOutcomes).floodZone = some "X" ∧
    (mergeSettled "1 A St" allFulfilledOutcomes).zoning = some "R1" ∧
    scrapePropertyData Unit Unit Unit Unit "1 A St" allOkFetchers =
      mergeSettled "1 A St"
        (settleAllQueries Unit Unit Unit Unit "1 A St" allOkFetchers) :=
  have h := C4_settle_all_merge Unit Unit Unit Unit Unit Unit Unit Unit
    "1 A St" allFulfilledOutcomes allOkFetchers
  ⟨h.1 () rfl, h.2.1 () rfl, h.2.2.1 [()] rfl, h.2.2.2.1 [()] rfl,
   h.2.2.2.2.1 [()] rfl, h.2.2.2.2.2.1 () rfl, h.2.2.2.2.2.2.1 [()] rfl,
   h.2.2.2.2.2.2.2.1 () rfl, h.2.2.2.2.2.2.2.2.1 72 rfl,
   h.2.2.2.2.2.2.2.2.2.1 "X" rfl, h.2.2.2.2.2.2.2.2.2.2.1 "R1" rfl,
   h.2.2.2.2.2.2.2.2.2.2.2⟩

/-- C9: regardless of address and environment, the six categories whose
fetchers throw `not implemented` unconditionally are fixed in every
result of `scrapePropertyData`: crime, floodZone and zoning are absent and
violations, sales and schools are the empty array. -/
theorem C9_unimplemented_categories (TD MD PD VD SD DG SC CR : Type)
    (address : String) (env : FetcherOutcomes TD MD PD DG) :
    (scrapePropertyData VD SD SC CR address env).crime = none ∧
    (scrapePropertyData VD SD SC CR address env).floodZone = none ∧
    (scrapePropertyData VD SD SC CR address env).zoning = none ∧
    (scrapePropertyData VD SD SC CR address env).violations = some [] ∧
    (scrapePropertyData VD SD SC CR address env).sales = some [] ∧
    (scrapePropertyData VD SD SC CR address env).schools = some [] ∧
    getCrimeData CR address = .error (.errorObj
      "Crime data API not implemented - no mock data available") ∧
    getFloodZone address = .error (.errorObj
      "FEMA flood zone API not implemented - no mock data available") ∧
    getZoning address = .error (.errorObj
      "Zoning API not implemented - no mock data available") ∧
    getViolationData VD address = .error (.errorObj
      "Violation data API not implemented - no mock data available") ∧
    getSalesHistory SD address = .error (.errorObj
      "Sales history API not implemented - no mock data available") ∧
    getSchoolData SC address = .error (.errorObj
      "School data API not implemented - no mock data available") :=
  ⟨rfl, rfl, rfl, rfl, rfl, rfl, rfl, rfl, rfl, rfl, rfl, rfl⟩

/-- C2 counterexample: with 6 of the 11 queries fulfilled and 5 rejected
(violations, sales, schools, crime, floodZone), the merged result is NOT
missing every failed category: the failed array categories violations,
sales and schools are present as empty arrays — an empty placeholder value
— rather than being omitted. -/
def sixFulfilledFiveFailed : SettledResults Unit Unit Unit Unit Unit Unit
    Unit Unit :=
  { taxData := .fulfilled (), marketData := .fulfilled ()
    permits := .fulfilled [()], violations := .rejected "violations failed"
    sales := .rejected "sales failed", demographics := .fulfilled ()
    schools := .rejected "schools failed", crime := .rejected "crime failed"
    walkScore := .fulfilled 72, floodZone := .rejected "flood failed"
    zoning := .fulfilled "R1" }

/-- C2 counterexample theorem: the failed `violations`, `sales` and
`schools` categories are present in the merged result as `some []` (an
empty placeholder), not absent. -/
theorem C2_counterexample :
    sixFulfilledFiveFailed.violations = .rejected "violations failed" ∧
    (mergeSettled "9 Elm St" sixFulfilledFiveFailed).violations = some [] ∧
    (mergeSettled "9 Elm St" sixFulfilledFiveFailed).violations ≠ none ∧
    (mergeSettled "9 Elm St" sixFulfilledFiveFailed).sales = some [] ∧
    (mergeSettled "9 Elm St" sixFulfilledFiveFailed).schools = some [] :=
  ⟨rfl, rfl, fun h => Option.some_ne_none _ h, rfl, rfl⟩

/-- C2 (amended): a failed query leads to an absent category only for the
seven scalar categories (taxAssessment, marketData, demographics, crime,
walkScore, floodZone, zoning); for the four array categories (permits,
violations, sales, schools) a failed query is replaced by the empty array
in the merged result. -/
theorem C2_failed_categories (TD MD PD VD SD DG SC CR : Type)
    (address : String) (r : SettledResults TD MD PD VD SD DG SC CR) :
    (∀ e, r.taxData = .rejected e →
      (mergeSettled address r).taxAssessment = none) ∧
    (∀ e, r.marketData = .rejected e →
      (mergeSettled address r).marketData = none) ∧
    (∀ e, r.demographics = .rejected e →
      (mergeSettled address r).demographics = none) ∧
    (∀ e, r.crime = .rejected e →
      (mergeSettled address r).crime = none) ∧
    (∀ e, r.walkScore = .rejected e →
      (mergeSettled address r).walkScore = none) ∧
    (∀ e, r.floodZone = .rejected e →
      (mergeSettled address r).floodZone = none) ∧
    (∀ e, r.zoning = .rejected e →
      (mergeSettled address r).zoning = none) ∧
    (∀ e, r.permits = .rejected e →
      (mergeSettled address r).permits = some []) ∧
    (∀ e, r.violations = .rejected e →
      (mergeSettled address r).violations = some []) ∧
    (∀ e, r.sales = .rejected e →
      (mergeSettled address r).sales = some []) ∧
    (∀ e, r.schools = .rejected e →
      (mergeSettled address r).schools = some []) := by
  refine ⟨?_, ?_, ?_, ?_, ?_, ?_, ?_, ?_, ?_, ?_, ?_⟩ <;>
    (intro e he; show _ = _; rw [mergeSettled, he]; rfl)

/-- The eleven settled outcomes with every query rejected (the total
aggregation failure scenario). -/
def allFailedOutcomes : SettledResults Unit Unit Unit Unit Unit Unit Unit
    Unit :=
  { taxData := .rejected "e1", marketData := .rejected "e2"
    permits := .rejected "e3", violations := .rejected "e4"
    sales := .rejected "e5", demographics := .rejected "e6"
    schools := .rejected "e7", crime := .rejected "e8"
    walkScore := .rejected "e9", floodZone := .rejected "e10"
    zoning := .rejected "e11" }

/-- Witness for the amended C2 on a concrete all-failed assignment. -/
theorem C2_failed_categories_witness :
    (mergeSettled "2 B St" allFailedOutcomes).taxAssessment = none ∧
    (mergeSettled "2 B St" allFailedOutcomes).marketData = none ∧
    (mergeSettled "2 B St" allFailedOutcomes).demographics = none ∧
    (mergeSettled "2 B St" allFailedOutcomes).crime = none ∧
    (mergeSettled "2 B St" allFailedOutcomes).walkScore = none ∧
    (mergeSettled "2 B St" allFailedOutcomes).floodZone = none ∧
    (mergeSettled "2 B St" allFailedOutcomes).zoning = none ∧
    (mergeSettled "2 B St" allFailedOutcomes).permits = some [] ∧
    (mergeSettled "2 B St" allFailedOutcomes).violations = some [] ∧
    (mergeSettled "2 B St" allFailedOutcomes).sales = some [] ∧
    (mergeSettled "2 B St" allFailedOutcomes).schools = some [] :=
  have h := C2_failed_categories Unit Unit Unit Unit Unit Unit Unit Unit
    "2 B St" allFailedOutcomes
  ⟨h.1 "e1" rfl, h.2.1 "e2" rfl, h.2.2.1 "e6" rfl, h.2.2.2.1 "e8" rfl,
   h.2.2.2.2.1 "e9" rfl, h.2.2.2.2.2.1 "e10" rfl, h.2.2.2.2.2.2.1 "e11" rfl,
   h.2.2.2.2.2.2.2.1 "e3" rfl, h.2.2.2.2.2.2.2.2.1 "e4" rfl,
   h.2.2.2.2.2.2.2.2.2.1 "e5" rfl, h.2.2.2.2.2.2.2.2.2.2 "e7" rfl⟩

end PropertyOS

